import Mathlib

/-!
Verification of the appointment availability and booking engine of the
french_voice_agent repository.

The repository contains two implementations of the calendar manager:
* `agent/tools/calendar.py` (the French `CalendarManager`), and
* `agent.py` (the English standalone `CalendarManager`).

We embed both.  Times of day are modelled as minutes from midnight
(a slot string "HH:MM" corresponds to `hour * 60 + minute`; the `%02d`
zero-padded rendering is injective and order-preserving for hours < 100,
so nothing is lost by working with minutes).  Messages produced by the
Python code are f-string templates; we model each template as a
constructor of an inductive type `Msg` carrying exactly the data the
template interpolates that matters to the logic (e.g. the conflict
count).  External collaborators (the Google Calendar API, SMTP, Twilio)
are modelled by their responses, passed in as parameters, and the calls
the engine issues to them are recorded in an explicit trace.
-/

namespace FrenchVoiceAgent

/-! ## Slot engine

`get_available_slots` (both `agent/tools/calendar.py` lines 131-141 and
`agent.py` lines 138-149) parses `BUSINESS_HOURS` into an open hour and a
close hour and then runs:

```
all_slots = []
for hour in range(start_hour, end_hour):
    for minute in [0, 30]:
        if hour == end_hour - 1 and minute == 30:
            break  # Don't go past business hours
        all_slots.append(f"{hour:02d}:{minute:02d}")
```

For each hour of `range(start_hour, end_hour)` this appends the two
offsets `:00` and `:30`, except that for the final hour
(`hour == end_hour - 1`) the `break` fires before the `:30` slot is
appended.  `range(a, b)` is empty when `a >= b`, and when `end_hour = 0`
the body never runs, so `Nat` subtraction in the guard is faithful. -/

/-- The candidate slot enumeration of `get_available_slots`, in minutes
from midnight. -/
def generate_slots (start_hour end_hour : Nat) : List Nat :=
  ((List.range (end_hour - start_hour)).map (· + start_hour)).flatMap
    (fun hour =>
      if hour = end_hour - 1 then [hour * 60]
      else [hour * 60, hour * 60 + 30])

/-! ## Data model shared by both implementations -/

/-- An event held by the external calendar store, reduced to its
half-open time interval `[start, endt)` in minutes from midnight. -/
structure GEvent where
  start : Nat
  endt : Nat
deriving DecidableEq

/-- The value returned by `events().insert(...).execute()`: the created
event with its store-assigned `id` and `htmlLink`. -/
structure CreatedEvent where
  id : String
  htmlLink : String
deriving DecidableEq

/-- The message templates (f-strings) produced by the two calendar
managers, keyed by the branch of the Python code that produces them and
carrying the interpolated values that the logic depends on. -/
inductive Msg
  /-- FR `check_availability`: "Impossible de vérifier les disponibilités
  pour le moment." (service not available). -/
  | checkServiceUnavailable
  /-- FR `check_availability`: "Désolé, ce créneau n'est pas disponible.
  Il y a déjà {n} rendez-vous à cette heure." -/
  | slotConflict (n : Nat)
  /-- FR `check_availability`: "Parfait ! Le créneau du {date} à {time}
  est disponible." -/
  | slotAvailable
  /-- FR `check_availability` except-branch: "Impossible de vérifier les
  disponibilités. Veuillez réessayer." -/
  | checkFailed
  /-- FR `book_appointment`: "Impossible de réserver le rendez-vous pour
  le moment." (service not available). -/
  | bookServiceUnavailable
  /-- FR `book_appointment` except-branch: "Désolé, impossible de
  réserver ce rendez-vous. Veuillez réessayer." -/
  | bookFailed
  /-- FR `book_appointment` success: "Parfait ! Votre rendez-vous est
  confirmé le {date} à {time}." plus the per-channel notification
  summary (which channels were reported sent). -/
  | bookConfirmed (emailSent smsSent : Bool)
  /-- FR `cancel_appointment`: "Service calendrier non disponible." -/
  | cancelServiceUnavailable
  /-- FR `cancel_appointment` success: "Votre rendez-vous a été annulé
  avec succès. Vous recevrez une confirmation par email." -/
  | cancelOk
  /-- FR `cancel_appointment` except-branch: "Impossible d'annuler ce
  rendez-vous. Veuillez contacter notre équipe." -/
  | cancelFailed
  /-- EN `check_availability`, service not configured: "The slot on
  {date} at {time} is available! (Demo mode - calendar not
  configured)". -/
  | enDemoAvailable
  /-- EN `check_availability` except-branch: "The slot on {date} at
  {time} appears available. (Unable to verify - {e})". -/
  | enAppearsAvailable
  /-- EN `check_availability`: "Sorry, that time slot is not available.
  There are {n} appointments already scheduled." -/
  | enNotAvailable (n : Nat)
  /-- EN `check_availability`: "Perfect! The slot on {date} at {time} is
  available." -/
  | enAvailable
  /-- EN `book_appointment`, service not configured: "Perfect! I've
  booked your {service} appointment for {date} at {time}. ...
  (Demo mode - not actually booked)". -/
  | enDemoBooked
  /-- EN `book_appointment` except-branch: "Sorry, I couldn't book that
  appointment. ...". -/
  | enBookFailed
  /-- EN `book_appointment` success: "Perfect! Your {service} appointment
  is confirmed for {date} at {time}.{email_status} See you then!". -/
  | enConfirmed (emailSent : Bool)
deriving DecidableEq

/-- Result dictionary of the French `check_availability`.  Keys that a
branch omits are modelled as `0` (`conflicting_events`) and `none`
(`error`). -/
structure AvailabilityResult where
  available : Bool
  conflicting_events : Nat
  error : Option String
  message : Msg
deriving DecidableEq

/-- Per-channel notification result as returned by
`notification_manager.send_email_confirmation` /
`send_sms_confirmation`: a dict with a `success` flag (plus a message,
irrelevant to the control flow). -/
structure NotifResult where
  success : Bool
deriving DecidableEq

/-- Result dictionary of the French `book_appointment`.  `notifications`
is the `{"email": ..., "sms": ...}` sub-dictionary, present only on the
success branch; `reason` is present only on the conflict branch. -/
structure BookingResult where
  success : Bool
  event_id : Option String
  notifications : Option (NotifResult × NotifResult)
  reason : Option String
  error : Option String
  message : Msg
deriving DecidableEq

/-- Result dictionary of the French `cancel_appointment`. -/
structure CancelResult where
  success : Bool
  error : Option String
  message : Msg
deriving DecidableEq

/-- One call issued by an engine to an external collaborator.  `list`,
`insert` and `delete` go to the calendar gateway, `email` and `sms` to
the notification dispatcher. -/
inductive Call
  | list (tmin tmax : Nat)
  | insert (startT endT : Nat)
  | delete (id : String)
  | email
  | sms
deriving DecidableEq

/-! ## Calendar gateway (external collaborator)

Modelled from the spec: the Calendar Gateway interface (spec §4.4).
`list_events` is the external Google Calendar `events().list` call with
`timeMin`/`timeMax`; its code is not part of the repository.  The spec
requires it to "return events whose interval intersects the given
half-open range", which for an event `[start, endt)` and a query range
`[tmin, tmax)` is `start < tmax ∧ tmin < endt` (also Google's documented
semantics: `timeMin` is an exclusive lower bound on the event's end,
`timeMax` an exclusive upper bound on the event's start). -/

/-- Whether event `e`'s half-open interval intersects `[lo, hi)`. -/
def overlaps (e : GEvent) (lo hi : Nat) : Bool :=
  decide (e.start < hi) && decide (lo < e.endt)

/-- Modelled from the spec: gateway `list_events` over a concrete store
(spec §4.4). -/
def list_events (store : List GEvent) (tmin tmax : Nat) : List GEvent :=
  store.filter (fun e => overlaps e tmin tmax)

/-- Modelled from the spec: gateway `delete_event` over a store of event
ids (spec §4.4 requires "not-found" to be distinguishable); the Google
client raises an `HttpError` (404/410) when the event does not exist,
modelled as `Except.error`.  Returns the delete outcome and the new
store. -/
def gateway_delete (store : List String) (id : String) :
    Except String Unit × List String :=
  if id ∈ store then (Except.ok (), store.erase id)
  else (Except.error "HttpError 404: Not Found", store)

/-! ## French implementation (`agent/tools/calendar.py`)

Each method is parameterised by the state of the external world:
`serviceUp` is whether `self.service` is set after `initialize()`
(credentials configured and valid); `listRes` is the outcome of the
`events().list(...).execute()` call for the queried range (`Except.error`
when the gateway is unreachable and `execute()` raises); `insertRes` /
`deleteRes` likewise for `insert` / `delete`.  Notification outcomes are
the dictionaries returned by the dispatcher (whose `send_*` methods
catch all exceptions internally and always return a result dict).  Each
method also returns the trace of external calls it issued. -/

/-- `CalendarManager.check_availability` (calendar.py lines 52-109).
The slot is `slot` minutes from midnight; the queried range is
`[slot, slot + dur)` where `dur = settings.APPOINTMENT_DURATION`. -/
def check_availability (serviceUp : Bool)
    (listRes : Except String (List GEvent)) : AvailabilityResult :=
  if serviceUp = false then
    ⟨false, 0, some "Calendar service not available", Msg.checkServiceUnavailable⟩
  else
    match listRes with
    | Except.error e => ⟨false, 0, some e, Msg.checkFailed⟩
    | Except.ok events =>
      if events.length ≠ 0 then
        ⟨false, events.length, none, Msg.slotConflict events.length⟩
      else
        ⟨true, 0, none, Msg.slotAvailable⟩

/-- The trace of gateway calls issued by `check_availability` for a slot
`[slot, slot + dur)`: one `events().list` query when the service is up,
none otherwise. -/
def check_availability_calls (serviceUp : Bool) (slot dur : Nat) : List Call :=
  if serviceUp = false then [] else [Call.list slot (slot + dur)]

/-- `CalendarManager.book_appointment` (calendar.py lines 165-314).
Control flow of the source: fail if the service is unavailable; call
`self.check_availability` and fail with its message (and reason
`"time_slot_unavailable"`) if the slot is taken; `insert` the event (an
exception lands in the top-level except-branch, so no notification is
attempted); then send the email confirmation, and the SMS confirmation
only when `phone` is truthy (otherwise `sms_result` defaults to
`{"success": False, "message": "SMS non configuré"}` with no send);
return success with the created event's id and both per-channel
outcomes.  `phoneNonempty` is the truthiness of `phone`. -/
def book_appointment (serviceUp : Bool)
    (listRes : Except String (List GEvent))
    (insertRes : Except String CreatedEvent)
    (emailRes smsRes : NotifResult) (phoneNonempty : Bool)
    (slot dur : Nat) : BookingResult × List Call :=
  if serviceUp = false then
    (⟨false, none, none, none, some "Calendar service not available",
      Msg.bookServiceUnavailable⟩, [])
  else
    let availability := check_availability serviceUp listRes
    let trace0 := check_availability_calls serviceUp slot dur
    if availability.available = false then
      (⟨false, none, none, some "time_slot_unavailable", none,
        availability.message⟩, trace0)
    else
      match insertRes with
      | Except.error e =>
        (⟨false, none, none, none, some e, Msg.bookFailed⟩,
          trace0 ++ [Call.insert slot (slot + dur)])
      | Except.ok created =>
        let email_result := emailRes
        let sms_result := if phoneNonempty then smsRes else ⟨false⟩
        (⟨true, some created.id, some (email_result, sms_result), none, none,
          Msg.bookConfirmed email_result.success sms_result.success⟩,
          trace0 ++ [Call.insert slot (slot + dur), Call.email] ++
            (if phoneNonempty then [Call.sms] else []))

/-- `CalendarManager.cancel_appointment` (calendar.py lines 316-346).
The source deletes the event (with `sendUpdates='all'`, delegating
attendee notification to the gateway) and returns success; any exception
raised by the delete call — including the `HttpError` the Google client
raises for an already-deleted / unknown event — lands in the
except-branch and is reported as `success=False`.  No call to the
notification dispatcher is made on this path. -/
def cancel_appointment (serviceUp : Bool)
    (deleteRes : Except String Unit) (event_id : String) :
    CancelResult × List Call :=
  if serviceUp = false then
    (⟨false, none, Msg.cancelServiceUnavailable⟩, [])
  else
    match deleteRes with
    | Except.ok _ => (⟨true, none, Msg.cancelOk⟩, [Call.delete event_id])
    | Except.error e => (⟨false, some e, Msg.cancelFailed⟩, [Call.delete event_id])

/-- `cancel_appointment` run against a concrete gateway store of event
ids: the gateway delete outcome is computed by `gateway_delete` and the
store is threaded through. -/
def cancel_on (store : List String) (id : String) :
    CancelResult × List String :=
  let res := gateway_delete store id
  ((cancel_appointment true res.1 id).1, res.2)

/-! ## English implementation (`agent.py`) -/

/-- Result dictionary of the English `book_appointment` (agent.py lines
171-246).  There is no notifications sub-dictionary; `email_sent` is the
boolean returned by `send_email_confirmation` (keyed into the message),
`none` on branches that never attempt it. -/
structure BookingResultEn where
  success : Bool
  event_id : Option String
  email_sent : Option Bool
  message : Msg
deriving DecidableEq

/-- Result dictionary of the English `check_availability` (agent.py
lines 83-127): only `available` and `message`. -/
structure AvailabilityResultEn where
  available : Bool
  message : Msg
deriving DecidableEq

/-- English `CalendarManager.check_availability` (agent.py lines
83-127).  When the service is not configured it reports the slot
available in demo mode; when the gateway raises it reports the slot as
"appears available"; otherwise available iff the query returns no
events. -/
def check_availability_en (serviceUp : Bool)
    (listRes : Except String (List GEvent)) : AvailabilityResultEn :=
  if serviceUp = false then
    ⟨true, Msg.enDemoAvailable⟩
  else
    match listRes with
    | Except.error _ => ⟨true, Msg.enAppearsAvailable⟩
    | Except.ok events =>
      if events.length ≠ 0 then ⟨false, Msg.enNotAvailable events.length⟩
      else ⟨true, Msg.enAvailable⟩

/-- English `CalendarManager.book_appointment` (agent.py lines 171-246).
When the service is not configured it returns immediately with
`success=True` and the demo message: no availability check, no insert,
no email, no `event_id` in the dict.  Otherwise it checks availability,
inserts, then calls `send_email_confirmation` (whose boolean outcome is
`emailSent`; it returns `False` by itself when SMTP is unconfigured). -/
def book_appointment_en (serviceUp : Bool)
    (listRes : Except String (List GEvent))
    (insertRes : Except String CreatedEvent)
    (emailSent : Bool) (slot dur : Nat) : BookingResultEn × List Call :=
  if serviceUp = false then
    (⟨true, none, none, Msg.enDemoBooked⟩, [])
  else
    let availability := check_availability_en serviceUp listRes
    let trace0 := [Call.list slot (slot + dur)]
    if availability.available = false then
      (⟨false, none, none, availability.message⟩, trace0)
    else
      match insertRes with
      | Except.error _ =>
        (⟨false, none, none, Msg.enBookFailed⟩,
          trace0 ++ [Call.insert slot (slot + dur)])
      | Except.ok created =>
        (⟨true, some created.id, some emailSent, Msg.enConfirmed emailSent⟩,
          trace0 ++ [Call.insert slot (slot + dur), Call.email])

/-! ## Notification dispatcher: SMS phone normalization
(`agent/tools/notifications.py` lines 165-235)

Python strings are modelled as `List Char`. -/

/-- Python `str.startswith` for a single-character prefix. -/
def startswith (s : List Char) (c : Char) : Bool :=
  match s with
  | [] => false
  | a :: _ => a = c

/-- The phone-number normalization of `send_sms_confirmation`
(notifications.py lines 179-185):

```
if not phone.startswith('+'):
    if phone.startswith('0'):
        phone = '+33' + phone[1:]
    else:
        phone = '+33' + phone
```
-/
def format_phone (phone : List Char) : List Char :=
  if startswith phone '+' then phone
  else if startswith phone '0' then '+' :: '3' :: '3' :: phone.drop 1
  else '+' :: '3' :: '3' :: phone

/-- `NotificationManager.send_sms_confirmation` (notifications.py lines
165-235), reduced to what reaches the Twilio transport: if any of the
three Twilio settings is unset the method returns failure without
normalizing or sending; otherwise the recipient actually used as the
`'To'` field is `format_phone phone`, and success is whether the API
responded 201.  The second component is the recipient sent, `none` when
no send was attempted. -/
def send_sms_confirmation (twilioSid twilioToken twilioFrom : Option String)
    (phone : List Char) (apiStatus : Nat) :
    NotifResult × Option (List Char) :=
  if twilioSid.isSome && twilioToken.isSome && twilioFrom.isSome then
    let recipient := format_phone phone
    if apiStatus = 201 then (⟨true⟩, some recipient)
    else (⟨false⟩, some recipient)
  else
    (⟨false⟩, none)

/-! ## Theorems -/

/-- **C1**: for business hours "09:00-17:00" (open 9, close 17) and
duration 30, the candidate enumeration is claimed to produce exactly 16
slots, first 09:00 and last 16:30.  The code in fact produces 15 slots:
the `break` at `hour == end_hour - 1 and minute == 30` skips the 16:30
slot even though a 16:30-17:00 appointment ends exactly at close (the
code's own comment says only "don't go past business hours", and the
demo slot list in agent.py line 134 itself contains "16:30").  This
theorem evaluates the code at the failing input: 15 slots, first 09:00
(540), last 16:00 (960), 16:30 (990) missing; the rest of the claim
(strict ascent, nothing at or after 17:00, no slot ending past close)
does hold. -/
theorem slot_generation_skips_last_half_hour :
    (generate_slots 9 17).length = 15 ∧
    (generate_slots 9 17).head? = some (9 * 60) ∧
    (generate_slots 9 17).getLast? = some (16 * 60) ∧
    (generate_slots 9 17).contains (16 * 60 + 30) = false ∧
    List.Pairwise (· < ·) (generate_slots 9 17) ∧
    (generate_slots 9 17).all
      (fun s => decide (s < 17 * 60) && decide (s + 30 ≤ 17 * 60)) = true := by
  decide

/-- **C8**: whenever the parsed open hour is greater than or equal to
the close hour, the candidate enumeration is the empty list (the Python
`range(start_hour, end_hour)` is empty, so the loop body never runs and
no error is raised; the embedding is a total function). -/
theorem slot_generation_empty_when_inverted (open_hour close_hour : Nat)
    (h : close_hour ≤ open_hour) :
    generate_slots open_hour close_hour = [] := by
  unfold generate_slots
  rw [Nat.sub_eq_zero_of_le h]
  rfl

/-- Witness for **C8** at open 17, close 9. -/
theorem slot_generation_empty_when_inverted_witness :
    9 ≤ 17 ∧ generate_slots 17 9 = [] :=
  ⟨by decide, slot_generation_empty_when_inverted 17 9 (by decide)⟩

/-- Helper: for a successful gateway response, the French availability
flag is exactly "the returned event list is empty". -/
theorem check_availability_ok_available (evs : List GEvent) :
    (check_availability true (Except.ok evs)).available = evs.isEmpty := by
  cases evs <;> simp [check_availability]

/-- **C7**: availability uses closed-open interval semantics: with the
gateway answering the `[slot, slot + dur)` query per its contract, a
slot is reported available iff no stored event's `[start, endt)`
interval intersects `[slot, slot + dur)`; concretely, with one existing
event `[14:00, 14:30)` and duration 30, slot 14:00 (840) is excluded
while 13:30 (810) and 14:30 (870) are included — an event ending exactly
at the slot start does not conflict. -/
theorem availability_closed_open_semantics :
    (∀ (store : List GEvent) (slot dur : Nat),
      (check_availability true
        (Except.ok (list_events store slot (slot + dur)))).available = true ↔
      ∀ e ∈ store, overlaps e slot (slot + dur) = false) ∧
    (check_availability true
      (Except.ok (list_events [⟨840, 870⟩] 840 (840 + 30)))).available = false ∧
    (check_availability true
      (Except.ok (list_events [⟨840, 870⟩] 810 (810 + 30)))).available = true ∧
    (check_availability true
      (Except.ok (list_events [⟨840, 870⟩] 870 (870 + 30)))).available = true := by
  refine ⟨?_, by decide, by decide, by decide⟩
  intro store slot dur
  rw [check_availability_ok_available, list_events]
  simp

/-- **C2 (amended)**: in the French `CalendarManager`
(`agent/tools/calendar.py`), an unconfigured service or an unreachable
gateway makes the availability check report `available=False` with an
error and makes booking report `success=False`; that implementation
never falls back to assuming availability.  (The English
`CalendarManager` in `agent.py`, also cited by the claim, instead falls
back to "available" — see the counterexample theorem.) -/
theorem french_calendar_fails_closed :
    (∀ listRes, (check_availability false listRes).available = false ∧
      (check_availability false listRes).error.isSome = true) ∧
    (∀ e, (check_availability true (Except.error e)).available = false ∧
      (check_availability true (Except.error e)).error = some e) ∧
    (∀ listRes ins eR sR p slot dur,
      (book_appointment false listRes ins eR sR p slot dur).1.success = false) ∧
    (∀ e ins eR sR p slot dur,
      (book_appointment true (Except.error e) ins eR sR p slot dur).1.success
        = false) := by
  refine ⟨fun listRes => ⟨rfl, rfl⟩, fun e => ⟨rfl, rfl⟩,
    fun listRes ins eR sR p slot dur => rfl,
    fun e ins eR sR p slot dur => rfl⟩

/-- **C2 (counterexample)**: the English `CalendarManager` in `agent.py`
(cited by the claim) does fall back to assuming availability: with the
service unconfigured the availability check reports `available=True`
(demo mode), with the gateway raising it reports `available=True`
("appears available"), and booking with the service unconfigured reports
`success=True`. -/
theorem english_calendar_assumes_available :
    (check_availability_en false (Except.ok [])).available = true ∧
    (check_availability_en true (Except.error "unreachable")).available = true ∧
    (book_appointment_en false (Except.ok [])
      (Except.error "unreachable") false 840 30).1.success = true := by
  exact ⟨rfl, rfl, rfl⟩

/-- **C5**: booking a slot that has at least one pre-existing
overlapping calendar event returns `success=False` with the message
stating the (positive) number of conflicts, and the external-call trace
is exactly the one availability query: no create call is issued to the
gateway and no email or SMS notification is sent. -/
theorem booking_conflict_no_write_no_notifications
    (store : List GEvent) (e : GEvent) (slot dur : Nat)
    (ins : Except String CreatedEvent) (eR sR : NotifResult) (p : Bool)
    (he : e ∈ store) (hov : overlaps e slot (slot + dur) = true) :
    (book_appointment true (Except.ok (list_events store slot (slot + dur)))
        ins eR sR p slot dur).1.success = false ∧
    (book_appointment true (Except.ok (list_events store slot (slot + dur)))
        ins eR sR p slot dur).1.message
      = Msg.slotConflict (list_events store slot (slot + dur)).length ∧
    0 < (list_events store slot (slot + dur)).length ∧
    (book_appointment true (Except.ok (list_events store slot (slot + dur)))
        ins eR sR p slot dur).2 = [Call.list slot (slot + dur)] := by
  have hmem : e ∈ list_events store slot (slot + dur) :=
    List.mem_filter.mpr ⟨he, hov⟩
  have hlen : (list_events store slot (slot + dur)).length ≠ 0 := by
    intro h0
    rw [List.length_eq_zero] at h0
    rw [h0] at hmem
    exact (List.not_mem_nil e) hmem
  refine ⟨?_, ?_, Nat.pos_of_ne_zero hlen, ?_⟩ <;>
    simp [book_appointment, check_availability, check_availability_calls, hlen]

/-- Witness for **C5**: a store holding the single event `[14:00,14:30)`
and a booking request for slot 14:00 with duration 30. -/
theorem booking_conflict_no_write_no_notifications_witness :
    (⟨840, 870⟩ : GEvent) ∈ [(⟨840, 870⟩ : GEvent)] ∧
    (book_appointment true (Except.ok (list_events [⟨840, 870⟩] 840 (840 + 30)))
        (Except.ok ⟨"evt1", "link"⟩) ⟨true⟩ ⟨true⟩ true 840 30).1.success = false ∧
    (book_appointment true (Except.ok (list_events [⟨840, 870⟩] 840 (840 + 30)))
        (Except.ok ⟨"evt1", "link"⟩) ⟨true⟩ ⟨true⟩ true 840 30).2
      = [Call.list 840 (840 + 30)] := by
  have h := booking_conflict_no_write_no_notifications
    [⟨840, 870⟩] ⟨840, 870⟩ 840 30 (Except.ok ⟨"evt1", "link"⟩)
    ⟨true⟩ ⟨true⟩ true (by decide) (by decide)
  exact ⟨by decide, h.1, h.2.2.2⟩

/-- **C3**: when the gateway create succeeds, booking returns
`success=True` even if both the email and the SMS notification attempts
fail; the result records the per-channel outcomes (both with
`success=False`), both channels were actually attempted, and no delete
call is ever issued to the gateway (the created event is not rolled
back). -/
theorem booking_success_despite_notification_failures
    (ev : CreatedEvent) (eR sR : NotifResult) (slot dur : Nat)
    (hE : eR.success = false) (hS : sR.success = false) :
    (book_appointment true (Except.ok []) (Except.ok ev)
        eR sR true slot dur).1.success = true ∧
    (book_appointment true (Except.ok []) (Except.ok ev)
        eR sR true slot dur).1.event_id = some ev.id ∧
    (book_appointment true (Except.ok []) (Except.ok ev)
        eR sR true slot dur).1.notifications = some (eR, sR) ∧
    eR.success = false ∧ sR.success = false ∧
    Call.email ∈ (book_appointment true (Except.ok []) (Except.ok ev)
        eR sR true slot dur).2 ∧
    Call.sms ∈ (book_appointment true (Except.ok []) (Except.ok ev)
        eR sR true slot dur).2 ∧
    ∀ id, Call.delete id ∉ (book_appointment true (Except.ok []) (Except.ok ev)
        eR sR true slot dur).2 := by
  refine ⟨rfl, rfl, rfl, hE, hS, ?_, ?_, ?_⟩ <;>
    simp [book_appointment, check_availability, check_availability_calls]

/-- Witness for **C3**: both notification outcomes concretely failed. -/
theorem booking_success_despite_notification_failures_witness :
    (book_appointment true (Except.ok []) (Except.ok ⟨"evt1", "link"⟩)
        ⟨false⟩ ⟨false⟩ true 840 30).1.success = true ∧
    (book_appointment true (Except.ok []) (Except.ok ⟨"evt1", "link"⟩)
        ⟨false⟩ ⟨false⟩ true 840 30).1.notifications
      = some (⟨false⟩, ⟨false⟩) ∧
    ∀ id, Call.delete id ∉ (book_appointment true (Except.ok [])
        (Except.ok ⟨"evt1", "link"⟩) ⟨false⟩ ⟨false⟩ true 840 30).2 := by
  have h := booking_success_despite_notification_failures
    ⟨"evt1", "link"⟩ ⟨false⟩ ⟨false⟩ 840 30 rfl rfl
  exact ⟨h.1, h.2.2.1, h.2.2.2.2.2.2.2⟩

/-- **C4 (counterexample)**: cancellation is not idempotent.  With a
store holding exactly event "evt1", the first `cancel_appointment`
succeeds, but the second one — the gateway delete now raising the
not-found `HttpError` — returns `success=False`, contradicting the claim
that both calls return `success=True`. -/
theorem cancel_twice_second_fails :
    (cancel_on ["evt1"] "evt1").1.success = true ∧
    (cancel_on (cancel_on ["evt1"] "evt1").2 "evt1").1.success = false := by
  exact ⟨rfl, rfl⟩

/-- **C4 (amended)**: cancellation succeeds exactly when the gateway
delete call raises no exception; a "not found" / "already deleted"
gateway error is caught by the except-branch and reported as
`success=False`, so cancelling an id that is no longer (or never was) in
the store fails rather than succeeding idempotently. -/
theorem cancel_success_iff_gateway_delete_ok :
    (∀ id, (cancel_appointment true (Except.ok ()) id).1.success = true) ∧
    (∀ id e, (cancel_appointment true (Except.error e) id).1.success = false) ∧
    (∀ (store : List String) id, id ∉ store →
      (cancel_on store id).1.success = false) := by
  refine ⟨fun id => rfl, fun id e => rfl, fun store id h => ?_⟩
  simp [cancel_on, gateway_delete, h, cancel_appointment]

/-- Witness for **C4 (amended)**: cancelling an id absent from the
store fails. -/
theorem cancel_success_iff_gateway_delete_ok_witness :
    "evt9" ∉ ([] : List String) ∧ (cancel_on [] "evt9").1.success = false :=
  ⟨by decide, cancel_success_iff_gateway_delete_ok.2.2 [] "evt9" (by decide)⟩

/-- **C6 (counterexample)**: a cancellation whose gateway deletion
succeeds issues no email call and no SMS call — the cancellation path
never invokes the notification dispatcher (`send_cancellation_notice`
exists in `notifications.py` but has no caller), contradicting the claim
that both channels are attempted. -/
theorem cancel_attempts_no_channels_counterexample :
    (cancel_appointment true (Except.ok ()) "evt1").1.success = true ∧
    Call.email ∉ (cancel_appointment true (Except.ok ()) "evt1").2 ∧
    Call.sms ∉ (cancel_appointment true (Except.ok ()) "evt1").2 := by
  refine ⟨rfl, ?_, ?_⟩ <;> decide

/-- **C6 (amended)**: the cancellation engine never calls the
notification dispatcher on any path: its external-call trace contains no
email and no SMS call, whatever the gateway outcome; attendee
notification is delegated to the gateway itself (`sendUpdates='all'` on
the delete call), and the reported success depends only on the delete
outcome. -/
theorem cancel_never_calls_dispatcher :
    ∀ (serviceUp : Bool) (deleteRes : Except String Unit) (id : String),
      Call.email ∉ (cancel_appointment serviceUp deleteRes id).2 ∧
      Call.sms ∉ (cancel_appointment serviceUp deleteRes id).2 := by
  intro serviceUp deleteRes id
  cases serviceUp <;> cases deleteRes <;>
    simp [cancel_appointment]

/-- **C9**: the English `book_appointment` with the calendar service not
configured returns, for every environment, `success=True` with the
demo-mode message, no `event_id`, no notification outcome, and an empty
external-call trace: no availability check, no event creation, no email
send — a booking reported successful without any durable reservation. -/
theorem english_demo_booking_no_side_effects :
    ∀ (listRes : Except String (List GEvent))
      (ins : Except String CreatedEvent) (emailSent : Bool) (slot dur : Nat),
      book_appointment_en false listRes ins emailSent slot dur =
        (⟨true, none, none, Msg.enDemoBooked⟩, []) := by
  intro listRes ins emailSent slot dur
  rfl

/-- **C10**: the SMS dispatcher normalizes every recipient number before
sending: a number already starting with '+' is kept, a number starting
with '0' has the '0' replaced by "+33", any other number has "+33"
prepended; consequently the normalized number always starts with '+',
and whenever `send_sms_confirmation` actually sends (a recipient is
used), that recipient is exactly the normalized number. -/
theorem sms_phone_normalization :
    ∀ (phone : List Char),
      startswith (format_phone phone) '+' = true ∧
      (startswith phone '+' = true → format_phone phone = phone) ∧
      (startswith phone '+' = false → startswith phone '0' = true →
        format_phone phone = '+' :: '3' :: '3' :: phone.drop 1) ∧
      (startswith phone '+' = false → startswith phone '0' = false →
        format_phone phone = '+' :: '3' :: '3' :: phone) ∧
      ∀ (sid tok frm : Option String) (status : Nat) (rcpt : List Char),
        (send_sms_confirmation sid tok frm phone status).2 = some rcpt →
        rcpt = format_phone phone := by
  intro phone
  have h2 : startswith phone '+' = true → format_phone phone = phone :=
    fun hp => by simp [format_phone, hp]
  have h3 : startswith phone '+' = false → startswith phone '0' = true →
      format_phone phone = '+' :: '3' :: '3' :: phone.drop 1 :=
    fun hp hz => by simp [format_phone, hp, hz]
  have h4 : startswith phone '+' = false → startswith phone '0' = false →
      format_phone phone = '+' :: '3' :: '3' :: phone :=
    fun hp hz => by simp [format_phone, hp, hz]
  refine ⟨?_, h2, h3, h4, ?_⟩
  · cases hp : startswith phone '+' with
    | true => rw [h2 hp]; exact hp
    | false =>
      cases hz : startswith phone '0' with
      | true => rw [h3 hp hz]; rfl
      | false => rw [h4 hp hz]; rfl
  · intro sid tok frm status rcpt h
    by_cases hc : sid.isSome && tok.isSome && frm.isSome
    · simp only [send_sms_confirmation, hc, if_true] at h
      by_cases hs : status = 201 <;> simp [hs] at h <;> exact h.symm
    · simp [send_sms_confirmation, hc] at h

/-- Witness for **C10**: the French mobile-style number "061" (starts
with '0', no country code) is normalized to "+3361", and that normalized
number is exactly what the configured dispatcher sends to. -/
theorem sms_phone_normalization_witness :
    startswith ['0', '6', '1'] '+' = false ∧
    startswith ['0', '6', '1'] '0' = true ∧
    format_phone ['0', '6', '1'] = ['+', '3', '3', '6', '1'] ∧
    (['+', '3', '3', '6', '1'] : List Char) = format_phone ['0', '6', '1'] := by
  refine ⟨by decide, by decide, ?_, ?_⟩
  · exact (sms_phone_normalization ['0', '6', '1']).2.2.1 (by decide) (by decide)
  · exact (sms_phone_normalization ['0', '6', '1']).2.2.2.2
      (some "sid") (some "tok") (some "from") 201
      ['+', '3', '3', '6', '1'] (by decide)

end FrenchVoiceAgent
